import Mathlib

set_option maxRecDepth 10000

/-!
Verification development for the pyrtcm RTCM3 message library.

The Python sources embedded here are `src/pyrtcm/rtcmmessage.py` (the
`RTCMMessage` class: identity derivation, the recursive payload-schema walk,
bit extraction, serialization, immutability and rendering) and
`examples/benchmark.py` (the benchmark harness with its progress bar).

Modelling conventions:
- `bytes` values are `List Nat` with each element a byte value;
- Python exceptions are an explicit `PyError` value threaded through
  `Except`; each Python exception class / failure site gets a constructor;
- the static catalogs (`RTCM_DATA_FIELDS`, `RTCM_PAYLOADS_GET`,
  `RTCM_MSGIDS`) and the pure helpers of `rtcmhelpers.py`
  (`attsiz`, `bits2val`, `att2name`, satellite/cell labelling) are not part
  of the provided sources, so they enter as abstract parameters
  (the `Helpers` structure and an explicit catalog function), modelled from
  the spec where a concrete behaviour is needed;
- `bin(x).count("1")` is embedded as `popcount`;
- Python's bounded recursion (RecursionError) is modelled by a fuel
  parameter in the recursive schema walk: running out of fuel is an
  in-language exception, caught by the same handler as any other.
-/

namespace Pyrtcm

/-- Decoded attribute values: integers (raw or sign-extended field values,
group counts) or strings (the identity pseudo-attribute of unknown
messages). -/
inductive AttrVal where
  | int (i : Int)
  | str (s : String)
deriving DecidableEq, Repr

/-- Python-level failure kinds surfaced by the embedded code.
`missingPayload`, `bitRange` and `immutableWrite` are the three uses of
`RTCMMessageError`; `rtcmTypeError` is `RTCMTypeError` (the
attribute-processing wrapper, carrying the failing attribute name and the
message identity); the remaining constructors are built-in Python
exceptions reachable from the embedded code (`IndexError`,
`AttributeError`, the handler's `UnboundLocalError`, `NameError`,
`TypeError`, `ZeroDivisionError`, `RecursionError`). -/
inductive PyError where
  | missingPayload
  | immutableWrite
  | bitRange
  | rtcmTypeError (anam ident : String)
  | indexError
  | attributeError
  | unboundLocal
  | nameError
  | pyTypeError
  | zeroDivision
  | recursionError
deriving DecidableEq, Repr

/-- Python `object.__dict__` assignment restricted to the public attribute
namespace: overwrite in place if the key exists (keeping its position),
otherwise append (insertion order preserved). -/
def setAttr (attrs : List (String × AttrVal)) (nm : String) (v : AttrVal) :
    List (String × AttrVal) :=
  match attrs with
  | [] => [(nm, v)]
  | (k, w) :: rest => if k = nm then (k, v) :: rest else (k, w) :: setAttr rest nm v

/-- Python `getattr` on the public attribute namespace, as an `Option`. -/
def lookupA (attrs : List (String × AttrVal)) (nm : String) : Option AttrVal :=
  match attrs with
  | [] => none
  | (k, w) :: rest => if k = nm then some w else lookupA rest nm

/-- Python format `f"{n:02d}"` on a natural number. -/
def fmt2 (n : Nat) : String :=
  if n < 10 then "0" ++ toString n else toString n

/-- Python format `f"{n:03d}"` on a natural number. -/
def fmt3 (n : Nat) : String :=
  if n < 10 then "00" ++ toString n
  else if n < 100 then "0" ++ toString n
  else toString n

/-- Fueled helper for `popcount`; the fuel only needs to dominate the bit
length, and `popcount` passes the number itself. -/
def popcountAux : Nat → Nat → Nat
  | 0, _ => 0
  | _, 0 => 0
  | fuel + 1, n + 1 => (n + 1) % 2 + popcountAux fuel ((n + 1) / 2)

/-- Number of set bits, embedding Python's `bin(bitfield).count("1")`
(rtcmmessage.py line 230). -/
def popcount (n : Nat) : Nat := popcountAux n n

/-- Big-endian interpretation of a byte sequence, embedding Python's
`int.from_bytes(self._payload, "big")`. -/
def bytesToNat (p : List Nat) : Nat := p.foldl (fun a b => a * 256 + b) 0

/-- `RTCMMessage._getbits` (rtcmmessage.py lines 251-269): masked-bit
extraction from the big-endian payload value, raising `RTCMMessageError`
(the spec's BitRangeExceeded) when the requested span extends past the end
of the payload.  `8 * p.length` is `self._payblen`. -/
def getbits (p : List Nat) (position length : Nat) : Except PyError Nat :=
  if 8 * p.length < position + length then .error .bitRange
  else .ok (bytesToNat p >>> (8 * p.length - position - length) &&& (2 ^ length - 1))

/-- Python sequence subscript `p[i]` on a byte sequence: `IndexError` when
out of range. -/
def pyGetByte (p : List Nat) (i : Nat) : Except PyError Nat :=
  if h : i < p.length then .ok p[i] else .error .indexError

/-- `RTCMMessage.identity` (rtcmmessage.py lines 374-389): the 12-bit
message number from the top 12 payload bits; when it equals 4076, a
sub-type from the next 8 bits and a `"4076_NNN"` composite string. -/
def identityE (p : List Nat) : Except PyError String :=
  match pyGetByte p 0, pyGetByte p 1 with
  | .error e, _ => .error e
  | .ok _, .error e => .error e
  | .ok b0, .ok b1 =>
    let mid := b0 <<< 4 ||| b1 >>> 4
    if mid = 4076 then
      match pyGetByte p 2 with
      | .error e => .error e
      | .ok b2 => .ok (toString mid ++ "_" ++ fmt3 ((b1 &&& 0x1) <<< 7 ||| b2 >>> 1))
    else .ok (toString mid)

/-- Spec-side 12-bit message number: `(payload[0] << 4) | (payload[1] >> 4)`
read with total accessors. -/
def msgNumD (p : List Nat) : Nat := p.getD 0 0 <<< 4 ||| p.getD 1 0 >>> 4

/-- Spec-side 4076 sub-type: `((payload[1] & 0x1) << 7) | (payload[2] >> 1)`
read with total accessors. -/
def subNumD (p : List Nat) : Nat := (p.getD 1 0 &&& 0x1) <<< 7 ||| p.getD 2 0 >>> 1

/-- Spec-side zero-padding to three digits, following the spec's words for
the `"4076_NNN"` sub-type rendering. -/
def zeroPad3 (n : Nat) : String :=
  (if n < 10 then "00" else if n < 100 then "0" else "") ++ toString n

/-- The identity string as the specification describes it: the plain
decimal of the 12-bit value, or `"4076_NNN"` with the sub-type zero-padded
to three digits. -/
def identitySpec (p : List Nat) : String :=
  if msgNumD p = 4076 then "4076_" ++ zeroPad3 (subNumD p)
  else toString (msgNumD p)

/-- Size specifier of a repeating group in a payload schema: a literal
count, or the name of a previously decoded attribute, with `nest` the
`"+n"` suffix convention (number of nested-group indices appended to the
name before lookup, `0` for a plain name). -/
inductive SizeSpec where
  | fixed (n : Nat)
  | named (base : String) (nest : Nat)
deriving DecidableEq, Repr

/-- Shape of one payload-schema entry, mirroring `_set_attribute`'s
dispatch (rtcmmessage.py lines 93-116): a single attribute, a repeating
group `(size, body)`, or a conditional group `((trigger, value), body)`.
A schema is an ordered list of `(attribute name, shape)` pairs, as the
ordered Python dicts of the payload catalog. -/
inductive SchemaShape where
  | single
  | group (size : SizeSpec) (body : List (String × SchemaShape))
  | optional (anam : String) (con : AttrVal) (body : List (String × SchemaShape))

/-- Decoder state threaded through the schema walk: the payload, the
scaling flag, the public attribute namespace, the running bit offset and
the nested-group index stack. -/
structure DState where
  payload : List Nat
  scaling : Bool
  attrs : List (String × AttrVal)
  offset : Nat
  index : List Nat
deriving DecidableEq, Repr

/-- Abstract interface to the parts of pyrtcm that are outside the
provided sources.  Modelled from the spec: `fw` is the fixed bit width of
a field (the `attsiz` lookup composed with the `RTCM_DATA_FIELDS` catalog,
4.3); `b2v` is the raw-bits-to-value conversion `bits2val` with the
message-level scaling flag already folded in (a disabled flag passes scale
zero); `ismsm` is the MSM classification lookup over `RTCM_MSGIDS`
(absence yields false); `attNsat`/`attNcell` are the per-satellite /
per-cell field-name stem sets `ATT_NSAT`/`ATT_NCELL`; `att2name` strips a
dynamic attribute name to its base field code; `satLabel`/`cellLabel`
produce the PRN / (PRN, signal) labels from `sat2prn`/`cell2prn`. -/
structure Helpers where
  fw : String → Nat
  b2v : String → Bool → Nat → AttrVal
  ismsm : String → Bool
  attNsat : String → Bool
  attNcell : String → Bool
  att2name : String → String
  satLabel : String → String
  cellLabel : String → String

/-- Modelled from the spec: the internal attribute names `NSAT`, `NSIG`,
`NCELL` of `rtcmtypes_core.py` (satellite / signal / cell counts recorded
while decoding an MSM message). -/
def NSAT : String := "NSat"

/-- Modelled from the spec: the internal signal-count attribute name. -/
def NSIG : String := "NSig"

/-- Modelled from the spec: the internal cell-count attribute name. -/
def NCELL : String := "NCell"

/-- Modelled from the spec: the internal harmonic-coefficient count
attribute names `NHARMCOEFFC` / `NHARMCOEFFS` of `rtcmtypes_core.py`. -/
def NHARMC : String := "NHarmCoeffC"

/-- Modelled from the spec: the sine-coefficient count attribute name. -/
def NHARMS : String := "NHarmCoeffS"

/-- Python `getattr` required to produce an integer: `AttributeError` when
the attribute is absent, `TypeError` when the value is then used in
arithmetic although it is a string. -/
def lookInt (st : DState) (nm : String) : Except PyError Int :=
  match lookupA st.attrs nm with
  | some (.int v) => .ok v
  | some (.str _) => .error .pyTypeError
  | none => .error .attributeError

/-- Suffixing of an attribute name with the active nonzero nested-group
indices (rtcmmessage.py lines 205-208): `anami += f"_{i:02d}"` for each
`i > 0` in the index stack, outermost first. -/
def suffixName (index : List Nat) (anam : String) : String :=
  index.foldl (fun nm i => if i > 0 then nm ++ "_" ++ fmt2 i else nm) anam

/-- `RTCMMessage._set_attribute_single` (rtcmmessage.py lines 185-249):
decode one flat field at the current offset.  The width is the catalog
width except for `DF396`, whose width is the already-recorded satellite
count times signal count; after storing the value, the three MSM mask
fields additionally record the popcount of the just-decoded raw bitfield
into `NSAT`/`NSIG`/`NCELL`, and `IDF038` records the 4076_201 harmonic
coefficient counts from the degree/order fields at index `index[0]`. -/
def decodeSingle (H : Helpers) (anam : String) (st : DState) : Except PyError DState :=
  let anami := suffixName st.index anam
  let asizE : Except PyError Nat :=
    if anam = "DF396" then
      match lookInt st NSAT, lookInt st NSIG with
      | .ok a, .ok b => .ok (a * b).toNat
      | .error e, _ => .error e
      | _, .error e => .error e
    else .ok (H.fw anam)
  match asizE with
  | .error e => .error e
  | .ok asiz =>
    match getbits st.payload st.offset asiz with
    | .error e => .error e
    | .ok bitfield =>
      let val := H.b2v anam st.scaling bitfield
      let st1 : DState :=
        { st with attrs := setAttr st.attrs anami val, offset := st.offset + asiz }
      let st2 : DState :=
        if anam = "DF394" then
          { st1 with attrs := setAttr st1.attrs NSAT (.int (popcount bitfield)) }
        else if anam = "DF395" then
          { st1 with attrs := setAttr st1.attrs NSIG (.int (popcount bitfield)) }
        else if anam = "DF396" then
          { st1 with attrs := setAttr st1.attrs NCELL (.int (popcount bitfield)) }
        else st1
      if anam = "IDF038" then
        match st2.index with
        | [] => .error .indexError
        | i :: _ =>
          match lookInt st2 ("IDF037_" ++ fmt2 i), lookInt st2 ("IDF038_" ++ fmt2 i) with
          | .error e, _ => .error e
          | _, .error e => .error e
          | .ok d, .ok m =>
            let N : Int := d + 1
            let M : Int := m + 1
            let nc : Int := ((N + 1) * (N + 2)) / 2 - ((N - M) * (N - M + 1)) / 2
            let ns : Int := nc - (N + 1)
            .ok { st2 with
                  attrs := setAttr (setAttr st2.attrs NHARMC (.int nc)) NHARMS (.int ns) }
      else .ok st2

/-- Resolution of a repeating group's repeat count
(rtcmmessage.py lines 158-171): a literal, or a named attribute with the
`"+n"` nested-index suffixes appended first; the named value for `IDF035`
is an inclusive bound, so one is added. -/
def resolveSize (st : DState) (sz : SizeSpec) : Except PyError Int :=
  match sz with
  | .fixed n => .ok n
  | .named base nest =>
    let nmE : Except PyError String :=
      (List.range nest).foldlM (fun s j =>
        match st.index[j]? with
        | some v => .ok (s ++ "_" ++ fmt2 v)
        | none => .error .indexError) base
    match nmE with
    | .error e => .error e
    | .ok nm =>
      match lookInt st nm with
      | .error e => .error e
      | .ok gsiz => if nm = "IDF035" then .ok (gsiz + 1) else .ok gsiz

/-- `index[-1] = i` on the nested-group index stack. -/
def setLastIndex (st : DState) (i : Nat) : DState :=
  { st with index := st.index.dropLast ++ [i] }

/-- The repetition loop of `_set_attribute_group`
(rtcmmessage.py lines 176-179): run the body decoder once per repetition,
setting the top-of-stack index to 1, 2, … before each run. -/
def repeatGroup (f : DState → Except PyError DState) :
    Nat → Nat → DState → Except PyError DState
  | 0, _, st => .ok st
  | k + 1, i, st =>
    match f (setLastIndex st i) with
    | .error e => .error e
    | .ok st' => repeatGroup f k (i + 1) st'

/-- `RTCMMessage._set_attribute_group` (rtcmmessage.py lines 146-183),
parameterized by the body decoder `f`: resolve the repeat count, push a
fresh index level, run the body that many times (Python `range` semantics:
a negative resolved count yields zero repetitions), pop the level. -/
def decodeGroup (f : DState → Except PyError DState) (sz : SizeSpec) (st : DState) :
    Except PyError DState :=
  match resolveSize st sz with
  | .error e => .error e
  | .ok gsiz =>
    match repeatGroup f gsiz.toNat 1 { st with index := st.index ++ [0] } with
    | .error e => .error e
    | .ok st' => .ok { st' with index := st'.index.dropLast }

/-- `RTCMMessage._set_attribute_optional` (rtcmmessage.py lines 118-144),
parameterized by the body decoder `f`: decode the body only when the
already-decoded trigger attribute equals the trigger value. -/
def decodeOptional (f : DState → Except PyError DState) (trigger : String)
    (con : AttrVal) (st : DState) : Except PyError DState :=
  match lookupA st.attrs trigger with
  | none => .error .attributeError
  | some v => if v = con then f st else .ok st

/-- Recursive walk over a (nested) schema body: the `for anamg in gdict`
loops of `_set_attribute_optional` / `_set_attribute_group` combined with
`_set_attribute`'s dispatch.  The fuel models Python's recursion limit
(running out raises an exception caught like any other). -/
def decodeList (H : Helpers) : Nat → List (String × SchemaShape) → DState →
    Except PyError DState
  | 0, _, _ => .error .recursionError
  | _ + 1, [], st => .ok st
  | fuel + 1, (a, shape) :: rest, st =>
    match
      (match shape with
       | .single => decodeSingle H a st
       | .group sz body => decodeGroup (decodeList H fuel body) sz st
       | .optional t c body => decodeOptional (decodeList H fuel body) t c st) with
    | .error e => .error e
    | .ok st' => decodeList H fuel rest st'

/-- `RTCMMessage._set_attribute` (rtcmmessage.py lines 93-116): dispatch
one schema entry to the single / group / conditional decoder. -/
def decodeEntry (H : Helpers) (fuel : Nat) (a : String) (shape : SchemaShape)
    (st : DState) : Except PyError DState :=
  match shape with
  | .single => decodeSingle H a st
  | .group sz body => decodeGroup (decodeList H fuel body) sz st
  | .optional t c body => decodeOptional (decodeList H fuel body) t c st

/-- The top-level `for anam in pdict` loop of `_do_attributes`
(rtcmmessage.py lines 82-83); an error is paired with the loop variable
`anam` at the time it escaped, which the handler will consult. -/
def walkTop (H : Helpers) (fuel : Nat) : List (String × SchemaShape) → DState →
    Except (String × PyError) DState
  | [], st => .ok st
  | (a, shape) :: rest, st =>
    match decodeEntry H fuel a shape st with
    | .ok st' => walkTop H fuel rest st'
    | .error e => .error (a, e)

/-- The `except Exception` handler of `_do_attributes`
(rtcmmessage.py lines 85-91).  Its message interpolates the loop variable
`anam` and the property `self.identity`: when the failure happened before
the loop bound `anam`, the handler itself raises `UnboundLocalError`;
when re-deriving the identity raises, that exception escapes instead;
otherwise the wrapped `RTCMTypeError` carrying `anam` and the identity is
raised. -/
def handlerE (p : List Nat) (anamOpt : Option String) : PyError :=
  match anamOpt with
  | none => .unboundLocal
  | some a =>
    match identityE p with
    | .error e => e
    | .ok ident => .rtcmTypeError a ident

/-- `RTCMMessage._do_attributes` (rtcmmessage.py lines 66-91) over an
abstract payload catalog `cat` (the `RTCM_PAYLOADS_GET.get` lookup of
`_get_dict`): an unknown identity takes the `_do_unknown` shortcut
(rtcmmessage.py lines 282-288), storing the identity string under `DF002`
and reporting the unknown flag; otherwise the schema is walked and any
escaping exception goes through the handler.  Returns the final public
attribute list together with the unknown flag. -/
def doAttributes (H : Helpers) (cat : String → Option (List (String × SchemaShape)))
    (fuel : Nat) (st : DState) : Except PyError (List (String × AttrVal) × Bool) :=
  match identityE st.payload with
  | .error _ => .error (handlerE st.payload none)
  | .ok ident =>
    match cat ident with
    | none => .ok (setAttr st.attrs "DF002" (.str ident), true)
    | some pdict =>
      match walkTop H fuel pdict st with
      | .ok st' => .ok (st'.attrs, false)
      | .error (a, _) => .error (handlerE st.payload (some a))

/-- A constructed `RTCMMessage`: raw payload, construction options, the
unknown flag, the decoded public attributes in insertion order, and the
immutability flag set by `__init__` once decoding completes. -/
structure RTCMMsg where
  payload : List Nat
  scaling : Bool
  labelmsm : Nat
  unknown : Bool
  attrs : List (String × AttrVal)
  immutable : Bool
deriving DecidableEq, Repr

/-- `RTCMMessage.__init__` (rtcmmessage.py lines 43-64): reject a missing
(None) payload with `RTCMMessageError` (the spec's MissingPayload), run
`_do_attributes`, and freeze the object. -/
def construct (H : Helpers) (cat : String → Option (List (String × SchemaShape)))
    (fuel : Nat) (payload : Option (List Nat)) (scaling : Bool) (labelmsm : Nat) :
    Except PyError RTCMMsg :=
  match payload with
  | none => .error .missingPayload
  | some p =>
    match doAttributes H cat fuel ⟨p, scaling, [], 0, []⟩ with
    | .error e => .error e
    | .ok (attrs, unk) => .ok ⟨p, scaling, labelmsm, unk, attrs, true⟩

/-- `RTCMMessage.__setattr__` (rtcmmessage.py lines 345-359): once the
object is immutable, every attribute write raises `RTCMMessageError` (the
spec's ImmutableWriteViolation) before any state is touched, so the
attributes are unchanged; while mutable, the write goes through. -/
def msgSetAttr (m : RTCMMsg) (nm : String) (v : AttrVal) : Except PyError RTCMMsg :=
  if m.immutable then .error .immutableWrite
  else .ok { m with attrs := setAttr m.attrs nm v }

/-- Modelled from the spec: `RTCM_HDR`, the fixed preamble byte `0xD3`
(rtcmtypes_core.py, outside the provided sources). -/
def RTCM_HDR : List Nat := [0xD3]

/-- Modelled from the spec: `len2bytes` (rtcmhelpers.py, outside the
provided sources) — the payload byte count as the two-byte big-endian
length field, top six bits reserved and zero, low 10 bits the length. -/
def len2bytes (payload : List Nat) : List Nat :=
  [(payload.length >>> 8) &&& 0x03, payload.length &&& 0xFF]

/-- One shift-and-conditionally-xor step of CRC-24Q. -/
def crcStep (c : Nat) : Nat :=
  let c' := c <<< 1
  if c' &&& 0x1000000 ≠ 0 then c' ^^^ 0x1864CFB else c'

/-- CRC-24Q absorption of one byte. -/
def crcByte (crc b : Nat) : Nat :=
  (List.range 8).foldl (fun c _ => crcStep c) (crc ^^^ (b <<< 16))

/-- Modelled from the spec: the 24-bit CRC-24Q checksum (polynomial
`0x1864CFB`) of a byte sequence, as computed by `crc2bytes`
(rtcmhelpers.py, outside the provided sources). -/
def crc24q (msg : List Nat) : Nat := (msg.foldl crcByte 0) &&& 0xFFFFFF

/-- Modelled from the spec: the checksum as three big-endian bytes. -/
def crc2bytes (msg : List Nat) : List Nat :=
  let c := crc24q msg
  [(c >>> 16) &&& 0xFF, (c >>> 8) &&& 0xFF, c &&& 0xFF]

/-- `RTCMMessage.serialize` (rtcmmessage.py lines 361-372): preamble,
length field, raw payload, checksum over preamble+length+payload.  Only
`self._payload` is read. -/
def serialize (m : RTCMMsg) : List Nat :=
  let size := len2bytes m.payload
  let message := RTCM_HDR ++ size ++ m.payload
  message ++ crc2bytes message

/-- Python `str(value)` on a decoded attribute value. -/
def valStr : AttrVal → String
  | .int i => toString i
  | .str s => s

/-- The per-attribute MSM label of `__str__` (rtcmmessage.py lines
313-322): when labelling is on and the message is MSM-classified, a
per-satellite or per-cell attribute gets a parenthesised label from the
expansion lists — which were only computed (lines 301-304) when the
message is not unknown, so reaching them on an unknown message raises
`NameError`. -/
def attrLabel (H : Helpers) (ident : String) (labelmsm : Nat) (unknown : Bool)
    (att : String) : Except PyError String :=
  if labelmsm ≠ 0 ∧ H.ismsm ident then
    let aname := H.att2name att
    if H.attNsat aname then
      if unknown then .error .nameError else .ok ("(" ++ H.satLabel att ++ ")")
    else if H.attNcell aname then
      if unknown then .error .nameError else .ok ("(" ++ H.cellLabel att ++ ")")
    else .ok ""
  else .ok ""

/-- The rendered `att + lbl + "=" + str(val)` pieces of `__str__`, one per
public attribute in insertion order. -/
def strParts (H : Helpers) (ident : String) (labelmsm : Nat) (unknown : Bool) :
    List (String × AttrVal) → Except PyError (List String)
  | [] => .ok []
  | (att, v) :: rest =>
    match attrLabel H ident labelmsm unknown att with
    | .error e => .error e
    | .ok lbl =>
      match strParts H ident labelmsm unknown rest with
      | .error e => .error e
      | .ok parts => .ok ((att ++ lbl ++ "=" ++ valStr v) :: parts)

/-- The separator placement of the `__str__` attribute loop: `", "` after
every displayed attribute except the last (the private entries of
`__dict__` precede the public ones, so the final public attribute is the
final dictionary entry). -/
def joinParts : List String → String
  | [] => ""
  | [x] => x
  | x :: rest => x ++ ", " ++ joinParts rest

/-- `RTCMMessage.__str__` (rtcmmessage.py lines 290-331): the
`<RTCM(identity, att=val, …)>` rendering; unknown messages append the
fixed `", Not_Yet_Implemented"` marker before the closing `)>`. -/
def strRender (H : Helpers) (m : RTCMMsg) : Except PyError String :=
  match identityE m.payload with
  | .error e => .error e
  | .ok ident =>
    match strParts H ident m.labelmsm m.unknown m.attrs with
    | .error e => .error e
    | .ok parts =>
      .ok ("<RTCM(" ++ ident ++ ", " ++ joinParts parts ++
           (if m.unknown then ", Not_Yet_Implemented" else "") ++ ")>")

/-- Number of sample messages in the benchmark corpus `RTCMMESSAGES`
(benchmark.py lines 20-32: eleven literal frames). -/
def corpusSize : Nat := 11

/-- `progbar` (benchmark.py lines 35-50) reduced to its control flow: the
print is dropped; `int(i * inc / lim)` raises `ZeroDivisionError` when
`lim` is zero, and the guard `i % int(lim / inc)` raises
`ZeroDivisionError` when `int(lim / inc)` is zero.  Python's float
division followed by `int(...)` is integer floor division here (exact in
the claim's range). -/
def progbar (i lim : Nat) : Except PyError Unit :=
  let inc := 20
  let i' := min i lim
  if lim = 0 then .error .zeroDivision
  else
    let _pct := i' * inc / lim
    if lim / inc = 0 then .error .zeroDivision else .ok ()

/-- The benchmark cycle loop (benchmark.py lines 77-80): each iteration
first updates the progress bar, then parses the eleven corpus messages.
Modelled from the spec: the one-shot parse of each trusted corpus frame
succeeds (spec §8, property 12), so an iteration adds `corpusSize` to the
count of parsed messages.  Returns the number of messages parsed and the
escaping exception, if any. -/
def benchLoop (cyc : Nat) : Nat → Nat → Nat × Option PyError
  | 0, parsed => (parsed, none)
  | k + 1, parsed =>
    match progbar (cyc - (k + 1)) cyc with
    | .error e => (parsed, some e)
    | .ok _ => benchLoop cyc (k) (parsed + corpusSize)

/-- `benchmark` (benchmark.py lines 53-90) reduced to its control flow:
run the cycle loop; the throughput report at the end is printed exactly
when no exception escaped the loop.  Result: (messages parsed, report
printed, escaping exception). -/
def benchmark (cyc : Nat) : Nat × Bool × Option PyError :=
  let r := benchLoop cyc cyc 0
  (r.1, r.2.isNone, r.2)

/-- Sample helper instantiation for concrete witnesses: every field is
four bits wide except the eight-bit `DF394`, values are the raw bits, no
MSM classification or labelling. -/
def Hex : Helpers :=
  ⟨fun n => if n = "DF394" then 8 else 4, fun _ _ r => .int r,
   fun _ => false, fun _ => false, fun _ => false, id, fun _ => "", fun _ => ""⟩

/-- Sample empty payload catalog: no identity has a schema. -/
def catEmpty : String → Option (List (String × SchemaShape)) := fun _ => none

/-- Sample helper instantiation whose single field width (99 bits) always
overruns a short payload, to exercise the error-wrapping path. -/
def Hwide : Helpers :=
  ⟨fun _ => 99, fun _ _ r => .int r,
   fun _ => false, fun _ => false, fun _ => false, id, fun _ => "", fun _ => ""⟩

/-- Sample catalog with one single-field schema for every identity. -/
def catOne : String → Option (List (String × SchemaShape)) :=
  fun _ => some [("DF999", .single)]

/-- Sample MSM-style schema: a satellite mask followed by a per-satellite
repeating group sized by the recorded satellite count. -/
def msmSchema : List (String × SchemaShape) :=
  [("DF394", .single), ("group", .group (.named "NSat" 0) [("DF025", .single)])]

/-- Sample decoder state on a three-byte payload whose first byte `0xA4`
has three bits set. -/
def stMsm : DState := ⟨[0xA4, 0xBC, 0xD0], true, [], 0, []⟩

/-- Spec-side cosine-coefficient count for the 4076_201 spherical-harmonic
sub-type: `nc = ((N+1)(N+2)/2) − ((N−M)(N−M+1)/2)` (both products are
even, so the divisions are exact). -/
def hcNc (N M : Int) : Int := ((N + 1) * (N + 2)) / 2 - ((N - M) * (N - M + 1)) / 2

/-- Spec-side sine-coefficient count: `ns = nc − (N+1)`. -/
def hcNs (N M : Int) : Int := hcNc N M - (N + 1)

/-- Sample decoder state for the 4076_201 harmonic-index claim: one-byte
payload `0x30`, a decoded degree attribute `IDF037_01 = 2`, nested-group
index stack `[1]`. -/
def stIdf : DState := ⟨[0x30], true, [("IDF037_01", AttrVal.int 2)], 0, [1]⟩

/-- Sample decoder state with recorded satellite and signal counts, for
the variable-width `DF396` cell mask. -/
def stCell : DState :=
  ⟨[0xA4, 0xBC, 0xD0], true, [("NSat", AttrVal.int 2), ("NSig", AttrVal.int 2)], 0, []⟩

end Pyrtcm

deriving instance DecidableEq for Except

namespace Pyrtcm

/-- Padding to three digits agrees between the Python format embedding and
the spec-side description. -/
theorem fmt3_eq_zeroPad3 (n : Nat) : fmt3 n = zeroPad3 n := by
  rw [fmt3, zeroPad3]
  by_cases h1 : n < 10
  · simp [h1]
  · by_cases h2 : n < 100 <;> simp [h1, h2]

/-- C1: for payloads long enough to contain the header (two bytes, three
when the message number is 4076), `RTCMMessage.identity` returns exactly
the string the spec describes, and the message number really is a 12-bit
value. -/
theorem identity_matches_spec (p : List Nat) (hb : ∀ b ∈ p, b < 256)
    (h2 : 2 ≤ p.length) (h3 : msgNumD p = 4076 → 3 ≤ p.length) :
    identityE p = .ok (identitySpec p) ∧ msgNumD p < 4096 := by
  have h0 : 0 < p.length := by omega
  have h1 : 1 < p.length := by omega
  have hg0 : p.getD 0 0 = p[0] := List.getD_eq_getElem p 0 h0
  have hg1 : p.getD 1 0 = p[1] := List.getD_eq_getElem p 0 h1
  constructor
  · by_cases hm : msgNumD p = 4076
    · have h2' : 2 < p.length := by omega
      have hg2 : p.getD 2 0 = p[2] := List.getD_eq_getElem p 0 h2'
      have hmid : p[0] <<< 4 ||| p[1] >>> 4 = 4076 := by
        rw [msgNumD, hg0, hg1] at hm; exact hm
      simp only [identityE, pyGetByte, dif_pos h0, dif_pos h1, dif_pos h2', hmid,
        if_true, identitySpec, hm, subNumD, hg1, hg2]
      refine congrArg Except.ok ?_
      have h46 : (toString (4076 : Nat) ++ "_") = "4076_" := by decide
      rw [h46, fmt3_eq_zeroPad3]
    · have hmid : ¬(p[0] <<< 4 ||| p[1] >>> 4 = 4076) := by
        rw [msgNumD, hg0, hg1] at hm; exact hm
      simp only [identityE, pyGetByte, dif_pos h0, dif_pos h1, if_neg hmid,
        identitySpec, if_neg hm, msgNumD, hg0, hg1]
  · have hb0 : p[0] < 256 := hb p[0] (p.getElem_mem h0)
    have hb1 : p[1] < 256 := hb p[1] (p.getElem_mem h1)
    have e0 : p.getD 0 0 <<< 4 < 4096 := by
      rw [hg0, Nat.shiftLeft_eq]; omega
    have e1 : p.getD 1 0 >>> 4 < 4096 := by
      rw [hg1, Nat.shiftRight_eq_div_pow]
      have := Nat.div_le_self p[1] (2 ^ 4)
      omega
    have : msgNumD p < 2 ^ 12 :=
      Nat.or_lt_two_pow (n := 12) (by simpa using e0) (by simpa using e1)
    simpa using this

/-- C1 witness: a payload starting `0x3E 0xD0` has identity `"1005"`. -/
theorem identity_matches_spec_witness :
    identityE [0x3E, 0xD0] = .ok "1005" ∧ msgNumD [0x3E, 0xD0] < 4096 := by
  have h := identity_matches_spec [0x3E, 0xD0] (by decide) (by decide) (by decide)
  exact ⟨by rw [h.1]; decide, h.2⟩

/-- C7: `RTCMMessage._getbits` raises exactly when the requested bit span
extends past the payload, and otherwise returns the unsigned value of
exactly those bits of the big-endian payload interpretation: the result is
below `2 ^ length` and its bit `i` is bit
`8 * p.length - position - length + i` of the payload value. -/
theorem getbits_spec (p : List Nat) (position length : Nat) :
    (8 * p.length < position + length →
      getbits p position length = .error .bitRange) ∧
    (position + length ≤ 8 * p.length →
      ∃ r, getbits p position length = .ok r ∧
        r = bytesToNat p >>> (8 * p.length - position - length) &&& (2 ^ length - 1) ∧
        r < 2 ^ length ∧
        ∀ i, i < length →
          r.testBit i = (bytesToNat p).testBit (8 * p.length - position - length + i)) := by
  constructor
  · intro h
    rw [getbits, if_pos h]
  · intro h
    refine ⟨_, by rw [getbits, if_neg (by omega)], rfl, ?_, ?_⟩
    · exact Nat.and_lt_two_pow _ (Nat.sub_lt (Nat.two_pow_pos length) Nat.one_pos)
    · intro i hi
      rw [Nat.testBit_and, Nat.testBit_shiftRight, Nat.testBit_two_pow_sub_one]
      simp [hi]

/-- C7 witness: a concrete in-range extraction (bits 4..11 of `0xABCD` are
`0xBC`) and a concrete out-of-range request that fails. -/
theorem getbits_spec_witness :
    getbits [0xAB, 0xCD] 4 8 = .ok 0xBC ∧
    getbits [0xAB, 0xCD] 10 8 = .error .bitRange := by
  constructor
  · obtain ⟨r, hr, hv, _, _⟩ := (getbits_spec [0xAB, 0xCD] 4 8).2 (by decide)
    rw [hr, hv]; decide
  · exact (getbits_spec [0xAB, 0xCD] 10 8).1 (by decide)

/-- Looking up the attribute just written finds the written value. -/
theorem lookupA_setAttr_self (l : List (String × AttrVal)) (nm : String) (v : AttrVal) :
    lookupA (setAttr l nm v) nm = some v := by
  induction l with
  | nil => simp [setAttr, lookupA]
  | cons hd tl ih =>
    obtain ⟨k, w⟩ := hd
    by_cases h : k = nm
    · simp [setAttr, lookupA, h]
    · simp [setAttr, lookupA, h, ih]

/-- Writing one attribute does not change the lookup of another. -/
theorem lookupA_setAttr_ne (l : List (String × AttrVal)) (nm nm' : String) (v : AttrVal)
    (h : nm ≠ nm') : lookupA (setAttr l nm v) nm' = lookupA l nm' := by
  induction l with
  | nil => simp [setAttr, lookupA, h]
  | cons hd tl ih =>
    obtain ⟨k, w⟩ := hd
    by_cases hk : k = nm
    · subst hk
      simp [setAttr, lookupA, h, ih]
    · simp [setAttr, lookupA, hk, ih]

/-- The repetition loop of a repeating group is exactly an iterated fold
of the body decoder over the 1-based repetition indices. -/
theorem repeatGroup_eq_fold (f : DState → Except PyError DState) (n i : Nat) (st : DState) :
    repeatGroup f n i st =
      (List.range' i n).foldlM (fun s j => f (setLastIndex s j)) st := by
  induction n generalizing i st with
  | zero => rfl
  | succ k ih =>
    rw [repeatGroup, List.range'_succ, List.foldlM_cons]
    cases h : f (setLastIndex st i) with
    | error e => rfl
    | ok st' => exact ih (i + 1) st'

/-- An attribute lookup stored as an integer makes `lookInt` succeed. -/
theorem lookInt_ok (st : DState) (nm : String) (k : Int)
    (h : lookupA st.attrs nm = some (.int k)) : lookInt st nm = .ok k := by
  simp only [lookInt, h]

/-- A repeat-count specifier naming a plain attribute (other than the
special `IDF035`) resolves to that attribute's integer value. -/
theorem resolveSize_named0 (st : DState) (nm : String) (k : Int) (hnm : nm ≠ "IDF035")
    (h : lookupA st.attrs nm = some (.int k)) : resolveSize st (.named nm 0) = .ok k := by
  show (match lookInt st nm with
      | .error e => (.error e : Except PyError Int)
      | .ok gsiz => if nm = "IDF035" then .ok (gsiz + 1) else .ok gsiz) = .ok k
  rw [lookInt_ok st nm k h]
  show (if nm = "IDF035" then (.ok (k + 1) : Except PyError Int) else .ok k) = .ok k
  rw [if_neg hnm]

/-- Two dynamic attribute names with the distinct base codes `IDF038` and
`IDF037` are never equal. -/
theorem idf038_ne_idf037 (s t : String) : "IDF038_" ++ s ≠ "IDF037_" ++ t := by
  intro h
  have hd : ("IDF038_" ++ s).data = ("IDF037_" ++ t).data := congrArg String.data h
  rw [String.data_append, String.data_append] at hd
  have h8 : ("IDF038_" : String).data = ['I', 'D', 'F', '0', '3', '8', '_'] := rfl
  have h7 : ("IDF037_" : String).data = ['I', 'D', 'F', '0', '3', '7', '_'] := rfl
  rw [h8, h7] at hd
  simp at hd

/-- C2: the three MSM mask fields record the popcount of their just-decoded
raw bitfield as the satellite, signal and cell counts; the `DF396` cell
mask is extracted with width satellite count × signal count (the offset
advances by exactly that much) instead of a fixed catalog width; a
repeating group whose size-specifier names an attribute (such as one of
these counts) holding `k` runs its body exactly `k` times (a fold over the
1-based repetition indices `1, …, k`); and concretely, a satellite mask
byte with three bits set yields exactly three repetitions of the
per-satellite group. -/
theorem msm_mask_popcounts_size_groups :
    (∀ (H : Helpers) (st : DState) (bf : Nat),
        getbits st.payload st.offset (H.fw "DF394") = .ok bf →
        ∃ st', decodeSingle H "DF394" st = .ok st' ∧
          st'.offset = st.offset + H.fw "DF394" ∧
          lookupA st'.attrs NSAT = some (.int (popcount bf))) ∧
    (∀ (H : Helpers) (st : DState) (bf : Nat),
        getbits st.payload st.offset (H.fw "DF395") = .ok bf →
        ∃ st', decodeSingle H "DF395" st = .ok st' ∧
          st'.offset = st.offset + H.fw "DF395" ∧
          lookupA st'.attrs NSIG = some (.int (popcount bf))) ∧
    (∀ (H : Helpers) (st : DState) (a b : Int) (bf : Nat),
        lookupA st.attrs NSAT = some (.int a) →
        lookupA st.attrs NSIG = some (.int b) →
        getbits st.payload st.offset (a * b).toNat = .ok bf →
        ∃ st', decodeSingle H "DF396" st = .ok st' ∧
          st'.offset = st.offset + (a * b).toNat ∧
          lookupA st'.attrs NCELL = some (.int (popcount bf))) ∧
    (∀ (f : DState → Except PyError DState) (st : DState) (nm : String) (k : Int),
        nm ≠ "IDF035" → lookupA st.attrs nm = some (.int k) →
        decodeGroup f (.named nm 0) st =
          match (List.range' 1 k.toNat).foldlM (fun s j => f (setLastIndex s j))
              { st with index := st.index ++ [0] } with
          | .error e => .error e
          | .ok st' => .ok { st' with index := st'.index.dropLast }) ∧
    (∃ st, decodeList Hex 10 msmSchema stMsm = .ok st ∧
      lookupA st.attrs NSAT = some (.int 3) ∧
      lookupA st.attrs "DF025_01" = some (.int 0xB) ∧
      lookupA st.attrs "DF025_02" = some (.int 0xC) ∧
      lookupA st.attrs "DF025_03" = some (.int 0xD) ∧
      lookupA st.attrs "DF025_04" = none) := by
  refine ⟨?_, ?_, ?_, ?_, ?_⟩
  · intro H st bf hg
    refine ⟨{ st with
        attrs := setAttr (setAttr st.attrs (suffixName st.index "DF394")
          (H.b2v "DF394" st.scaling bf)) NSAT (.int (popcount bf)),
        offset := st.offset + H.fw "DF394" }, ?_, rfl, lookupA_setAttr_self _ _ _⟩
    simp [decodeSingle, hg]
  · intro H st bf hg
    refine ⟨{ st with
        attrs := setAttr (setAttr st.attrs (suffixName st.index "DF395")
          (H.b2v "DF395" st.scaling bf)) NSIG (.int (popcount bf)),
        offset := st.offset + H.fw "DF395" }, ?_, rfl, lookupA_setAttr_self _ _ _⟩
    simp [decodeSingle, hg]
  · intro H st a b bf hsat hsig hg
    refine ⟨{ st with
        attrs := setAttr (setAttr st.attrs (suffixName st.index "DF396")
          (H.b2v "DF396" st.scaling bf)) NCELL (.int (popcount bf)),
        offset := st.offset + (a * b).toNat }, ?_, rfl, lookupA_setAttr_self _ _ _⟩
    simp [decodeSingle, lookInt, hsat, hsig, hg]
  · intro f st nm k hnm hlk
    rw [decodeGroup, resolveSize_named0 st nm k hnm hlk]
    cases h : (List.range' 1 k.toNat).foldlM (fun s j => f (setLastIndex s j))
        { st with index := st.index ++ [0] } with
    | error e => simp only [repeatGroup_eq_fold, h]
    | ok st' => simp only [repeatGroup_eq_fold, h]
  · exact ⟨_, rfl, by decide, by decide, by decide, by decide, by decide⟩

/-- C2 witness: the mask/popcount facts and the named-size group repeat
count at concrete states. -/
theorem msm_mask_popcounts_size_groups_witness :
    (∃ st', decodeSingle Hex "DF394" stMsm = .ok st' ∧
      st'.offset = stMsm.offset + Hex.fw "DF394" ∧
      lookupA st'.attrs NSAT = some (.int (popcount 0xA4))) ∧
    (∃ st', decodeSingle Hex "DF395" stMsm = .ok st' ∧
      st'.offset = stMsm.offset + Hex.fw "DF395" ∧
      lookupA st'.attrs NSIG = some (.int (popcount 0xA))) ∧
    (∃ st', decodeSingle Hex "DF396" stCell = .ok st' ∧
      st'.offset = stCell.offset + ((2 : Int) * 2).toNat ∧
      lookupA st'.attrs NCELL = some (.int (popcount 0xA))) ∧
    decodeGroup (fun st => .ok st) (.named "NSat" 0) stCell = .ok stCell := by
  refine ⟨?_, ?_, ?_, ?_⟩
  · exact msm_mask_popcounts_size_groups.1 Hex stMsm 0xA4 (by decide)
  · exact msm_mask_popcounts_size_groups.2.1 Hex stMsm 0xA (by decide)
  · exact msm_mask_popcounts_size_groups.2.2.1 Hex stCell 2 2 0xA (by decide) (by decide)
      (by decide)
  · exact (msm_mask_popcounts_size_groups.2.2.2.1 (fun st => .ok st) stCell "NSat" 2
      (by decide) (by decide)).trans (by decide)

/-- C9: decoding the harmonic-degree-index field `IDF038` at single-level
nested-group index `i` (the current index, which the code reads as
`index[0]`) records the ordering counts `nc` and `ns` computed from
`N = IDF037_i + 1` and `M = IDF038_i + 1` (the just-decoded value), and a
subsequent repeating group sized by either recorded name resolves to
exactly that count. -/
theorem idf038_harmonic_coefficient_sizing (H : Helpers) (st : DState) (i : Nat)
    (d mval : Int) (bf : Nat) (hidx : st.index = [i]) (hi : 0 < i)
    (hd : lookupA st.attrs ("IDF037_" ++ fmt2 i) = some (.int d))
    (hg : getbits st.payload st.offset (H.fw "IDF038") = .ok bf)
    (hv : H.b2v "IDF038" st.scaling bf = .int mval) :
    ∃ st', decodeSingle H "IDF038" st = .ok st' ∧
      lookupA st'.attrs NHARMC = some (.int (hcNc (d + 1) (mval + 1))) ∧
      lookupA st'.attrs NHARMS = some (.int (hcNs (d + 1) (mval + 1))) ∧
      resolveSize st' (.named NHARMC 0) = .ok (hcNc (d + 1) (mval + 1)) ∧
      resolveSize st' (.named NHARMS 0) = .ok (hcNs (d + 1) (mval + 1)) := by
  have hnm : suffixName [i] "IDF038" = "IDF038_" ++ fmt2 i := by
    rw [suffixName, List.foldl_cons, List.foldl_nil, if_pos hi]
    rw [show ("IDF038" ++ "_" : String) = "IDF038_" from by decide]
  have hne : ("IDF038_" ++ fmt2 i) ≠ ("IDF037_" ++ fmt2 i) := idf038_ne_idf037 _ _
  have hcs : NHARMS ≠ NHARMC := by decide
  refine ⟨{ st with
      attrs := setAttr (setAttr (setAttr st.attrs ("IDF038_" ++ fmt2 i)
          (AttrVal.int mval)) NHARMC (.int (hcNc (d + 1) (mval + 1))))
        NHARMS (.int (hcNs (d + 1) (mval + 1))),
      offset := st.offset + H.fw "IDF038" }, ?_, ?_, ?_, ?_, ?_⟩
  · simp [decodeSingle, lookInt, hidx, hnm, hg, hv,
      lookupA_setAttr_ne _ _ _ _ hne, lookupA_setAttr_self, hd, hcNc, hcNs]
  · rw [lookupA_setAttr_ne _ _ _ _ hcs, lookupA_setAttr_self]
  · rw [lookupA_setAttr_self]
  · exact resolveSize_named0 _ _ _ (by decide)
      (by rw [lookupA_setAttr_ne _ _ _ _ hcs, lookupA_setAttr_self])
  · exact resolveSize_named0 _ _ _ (by decide) (by rw [lookupA_setAttr_self])

/-- C9 witness: at a concrete state with degree 2 and a decoded order
value 3, the recorded counts are `nc = 10` and `ns = 6`. -/
theorem idf038_harmonic_coefficient_sizing_witness :
    ∃ st', decodeSingle Hex "IDF038" stIdf = .ok st' ∧
      lookupA st'.attrs NHARMC = some (.int (hcNc (2 + 1) (3 + 1))) ∧
      lookupA st'.attrs NHARMS = some (.int (hcNs (2 + 1) (3 + 1))) ∧
      resolveSize st' (.named NHARMC 0) = .ok (hcNc (2 + 1) (3 + 1)) ∧
      resolveSize st' (.named NHARMS 0) = .ok (hcNs (2 + 1) (3 + 1)) :=
  idf038_harmonic_coefficient_sizing Hex stIdf 1 2 3 3 rfl (by decide) (by decide)
    (by decide) (by decide)

/-- C3: serialize depends only on the stored raw payload (so it is
independent of the scaling flag, the labelling mode, the unknown flag and
all decoded attributes); its output is exactly preamble, length field,
payload, CRC-24Q checksum of preamble+length+payload; and a message whose
payload is `4C E0 00 80` serializes to `D3 00 04 4C E0 00 80 ED ED D6`. -/
theorem serialize_reframes_payload (m m' : RTCMMsg) (hp : m.payload = m'.payload) :
    serialize m = serialize m' ∧
    serialize m = RTCM_HDR ++ len2bytes m.payload ++ m.payload ++
      crc2bytes (RTCM_HDR ++ len2bytes m.payload ++ m.payload) ∧
    (m.payload = [0x4C, 0xE0, 0x00, 0x80] →
      serialize m = [0xD3, 0x00, 0x04, 0x4C, 0xE0, 0x00, 0x80, 0xED, 0xED, 0xD6]) := by
  refine ⟨by simp only [serialize, hp], rfl, ?_⟩
  intro h
  simp only [serialize, h]
  decide

/-- C3 witness: two messages sharing the payload `4C E0 00 80` but
differing in every option and attribute serialize identically, to the
expected frame. -/
theorem serialize_reframes_payload_witness :
    serialize ⟨[0x4C, 0xE0, 0x00, 0x80], false, 0, true, [("X", AttrVal.int 5)], true⟩ =
      serialize ⟨[0x4C, 0xE0, 0x00, 0x80], true, 1, false, [], true⟩ ∧
    serialize ⟨[0x4C, 0xE0, 0x00, 0x80], false, 0, true, [("X", AttrVal.int 5)], true⟩ =
      [0xD3, 0x00, 0x04, 0x4C, 0xE0, 0x00, 0x80, 0xED, 0xED, 0xD6] := by
  have h := serialize_reframes_payload
    ⟨[0x4C, 0xE0, 0x00, 0x80], false, 0, true, [("X", AttrVal.int 5)], true⟩
    ⟨[0x4C, 0xE0, 0x00, 0x80], true, 1, false, [], true⟩ rfl
  exact ⟨h.1, h.2.2 rfl⟩

/-- C4: a payload whose identity has no schema in the payload catalog
constructs successfully, with the unknown flag set and exactly one public
attribute — `DF002` holding the identity string — and its rendering ends
with the fixed `Not_Yet_Implemented)>` marker.  (The stem-set hypotheses
record that the pseudo-attribute `DF002` is not a per-satellite or
per-cell MSM name, which is how the catalogs outside the provided sources
classify it.) -/
theorem unknown_message_single_attribute (H : Helpers)
    (cat : String → Option (List (String × SchemaShape))) (fuel : Nat) (p : List Nat)
    (sc : Bool) (lm : Nat) (ident : String)
    (hid : identityE p = .ok ident) (hcat : cat ident = none)
    (hs : H.attNsat (H.att2name "DF002") = false)
    (hc : H.attNcell (H.att2name "DF002") = false) :
    ∃ m, construct H cat fuel (some p) sc lm = .ok m ∧
      m.unknown = true ∧
      m.attrs = [("DF002", AttrVal.str ident)] ∧
      ∃ pre, strRender H m = .ok (pre ++ "Not_Yet_Implemented)>") := by
  refine ⟨⟨p, sc, lm, true, [("DF002", AttrVal.str ident)], true⟩, ?_, rfl, rfl, ?_⟩
  · simp [construct, doAttributes, hid, hcat, setAttr]
  · have hlbl : attrLabel H ident lm true "DF002" = .ok "" := by
      rw [attrLabel]
      by_cases hcond : lm ≠ 0 ∧ H.ismsm ident
      · rw [if_pos hcond]
        simp [hs, hc]
      · rw [if_neg hcond]
    have hparts : strParts H ident lm true [("DF002", AttrVal.str ident)] =
        .ok ["DF002" ++ "" ++ "=" ++ ident] := by
      simp [strParts, hlbl, valStr]
    refine ⟨"<RTCM(" ++ ident ++ ", " ++ ("DF002" ++ "" ++ "=" ++ ident) ++ ", ", ?_⟩
    simp only [strRender, hid, hparts, joinParts, if_true]
    refine congrArg Except.ok ?_
    rw [show (", Not_Yet_Implemented" : String) = ", " ++ "Not_Yet_Implemented" from by decide]
    rw [show (")>" : String) = ")" ++ ">" from by decide]
    simp only [String.append_assoc]
    rw [show ("Not_Yet_Implemented" ++ (")" ++ ">") : String) = "Not_Yet_Implemented)>"
      from by decide]

/-- C4 witness: payload `01 00` has identity `"16"`, unknown in the empty
catalog; the constructed message and its rendering. -/
theorem unknown_message_single_attribute_witness :
    ∃ m, construct Hex catEmpty 10 (some [0x01, 0x00]) true 1 = .ok m ∧
      m.unknown = true ∧
      m.attrs = [("DF002", AttrVal.str "16")] ∧
      ∃ pre, strRender Hex m = .ok (pre ++ "Not_Yet_Implemented)>") :=
  unknown_message_single_attribute Hex catEmpty 10 [0x01, 0x00] true 1 "16"
    (by decide) rfl rfl rfl

/-- C5: once construction completes the message is immutable — every
attribute write fails with the immutable-write violation, and since the
guard raises before touching state, the attributes are unchanged — while a
still-mutable object (the state during construction) accepts writes. -/
theorem message_immutable_after_construction :
    (∀ (H : Helpers) (cat : String → Option (List (String × SchemaShape))) (fuel : Nat)
        (p : Option (List Nat)) (sc : Bool) (lm : Nat) (m : RTCMMsg),
        construct H cat fuel p sc lm = .ok m →
        m.immutable = true ∧ ∀ nm v, msgSetAttr m nm v = .error .immutableWrite) ∧
    (∀ (m : RTCMMsg) (nm : String) (v : AttrVal), m.immutable = false →
        msgSetAttr m nm v = .ok { m with attrs := setAttr m.attrs nm v }) := by
  constructor
  · intro H cat fuel p sc lm m h
    match p with
    | none => simp [construct] at h
    | some pl =>
      simp only [construct] at h
      cases hda : doAttributes H cat fuel ⟨pl, sc, [], 0, []⟩ with
      | error e => rw [hda] at h; exact absurd h (by simp)
      | ok pr =>
        obtain ⟨attrs, unk⟩ := pr
        rw [hda] at h
        simp only [Except.ok.injEq] at h
        subst h
        exact ⟨rfl, fun nm v => by simp [msgSetAttr]⟩
  · intro m nm v h
    simp [msgSetAttr, h]

/-- C5 witness: the message constructed from payload `01 00` (unknown
identity, so construction completes) rejects a write, and the same record
with the immutability flag cleared (the state during construction)
accepts it. -/
theorem message_immutable_after_construction_witness :
    msgSetAttr ⟨[1, 0], true, 1, true, [("DF002", AttrVal.str "16")], true⟩
      "DF003" (.int 0) = .error .immutableWrite ∧
    msgSetAttr ⟨[1, 0], true, 1, true, [("DF002", AttrVal.str "16")], false⟩
      "DF003" (.int 0) =
      .ok ⟨[1, 0], true, 1, true, [("DF002", AttrVal.str "16"), ("DF003", AttrVal.int 0)],
        false⟩ := by
  constructor
  · exact (message_immutable_after_construction.1 Hex catEmpty 10 (some [1, 0]) true 1
      ⟨[1, 0], true, 1, true, [("DF002", AttrVal.str "16")], true⟩ (by decide)).2
      "DF003" (.int 0)
  · exact (message_immutable_after_construction.2
      ⟨[1, 0], true, 1, true, [("DF002", AttrVal.str "16")], false⟩
      "DF003" (.int 0) rfl).trans (by decide)

/-- C6 counterexample: an empty (but present) payload does not fail with
the MissingPayload error — construction fails inside `_do_attributes`,
whose exception handler itself raises `UnboundLocalError` (the loop
variable `anam` is not yet bound). -/
theorem empty_payload_cex :
    construct Hex catEmpty 10 (some []) true 1 = .error .unboundLocal ∧
    construct Hex catEmpty 10 (some []) true 1 ≠ .error .missingPayload := by
  exact ⟨rfl, by decide⟩

/-- C6 (amended): an absent (None) payload fails with MissingPayload; an
empty payload passes the None check and construction still fails (no
message is produced) but with the handler's `UnboundLocalError`, not
MissingPayload. -/
theorem missing_payload_amended :
    (∀ (H : Helpers) (cat : String → Option (List (String × SchemaShape))) (fuel : Nat)
        (sc : Bool) (lm : Nat),
        construct H cat fuel none sc lm = .error .missingPayload) ∧
    (∀ (H : Helpers) (cat : String → Option (List (String × SchemaShape))) (fuel : Nat)
        (sc : Bool) (lm : Nat),
        construct H cat fuel (some []) sc lm = .error .unboundLocal) :=
  ⟨fun _ _ _ _ _ => rfl, fun _ _ _ _ _ => rfl⟩

/-- C8: when the failure happens before the schema walk binds a field name
(here: deriving the identity of a one-byte payload), the `except` handler
raises `UnboundLocalError` instead of the promised wrapper; once the walk
has bound a top-level field name `a` and fails, the failure is re-raised
as `RTCMTypeError` (AttributeProcessingFailure) carrying `a` and the
message identity. -/
theorem attribute_error_wrapping :
    (∀ (H : Helpers) (cat : String → Option (List (String × SchemaShape))) (fuel : Nat)
        (sc : Bool) (lm : Nat),
        construct H cat fuel (some [0x3E]) sc lm = .error .unboundLocal) ∧
    (∀ (H : Helpers) (cat : String → Option (List (String × SchemaShape))) (fuel : Nat)
        (p : List Nat) (sc : Bool) (lm : Nat) (ident : String)
        (pdict : List (String × SchemaShape)) (a : String) (e : PyError),
        identityE p = .ok ident → cat ident = some pdict →
        walkTop H fuel pdict ⟨p, sc, [], 0, []⟩ = .error (a, e) →
        construct H cat fuel (some p) sc lm = .error (.rtcmTypeError a ident)) := by
  constructor
  · intro H cat fuel sc lm
    rfl
  · intro H cat fuel p sc lm ident pdict a e hid hcat hwalk
    simp [construct, doAttributes, handlerE, hid, hcat, hwalk]

/-- C8 witness: a two-byte payload with identity `"1005"` and a schema
whose single 99-bit field overruns the payload is wrapped as
`RTCMTypeError` naming the field and the identity. -/
theorem attribute_error_wrapping_witness :
    construct Hwide catOne 10 (some [0x3E, 0xD0]) true 1 =
      .error (.rtcmTypeError "DF999" "1005") :=
  attribute_error_wrapping.2 Hwide catOne 10 [0x3E, 0xD0] true 1 "1005"
    [("DF999", .single)] "DF999" .bitRange (by decide) rfl (by decide)

/-- C10: for every cycle count `n` with `1 ≤ n < 20`, the modulus
`int(n / 20)` in the progress bar is zero, so the benchmark aborts with a
division-by-zero on the very first iteration, before any message is
parsed; for `n ≥ 20` the whole run goes through, parsing all `11 n` corpus
messages and reaching the throughput report. -/
theorem benchmark_progbar_divzero :
    (∀ n, 1 ≤ n → n < 20 → benchmark n = (0, false, some .zeroDivision)) ∧
    (∀ n, 20 ≤ n → benchmark n = (11 * n, true, none)) := by
  constructor
  · intro n h1 h2
    obtain ⟨m, rfl⟩ : ∃ m, n = m + 1 := ⟨n - 1, by omega⟩
    have hdiv : (m + 1) / 20 = 0 := Nat.div_eq_of_lt (by omega)
    simp [benchmark, benchLoop, progbar, hdiv]
  · intro n h20
    have hn0 : ¬n = 0 := by omega
    have hdiv : ¬n / 20 = 0 := by
      have : 1 ≤ n / 20 := (Nat.one_le_div_iff (by norm_num)).2 h20
      omega
    have key : ∀ k parsed, benchLoop n k parsed = (parsed + 11 * k, none) := by
      intro k
      induction k with
      | zero => intro parsed; simp [benchLoop]
      | succ j ih =>
        intro parsed
        have harith : parsed + 11 + 11 * j = parsed + 11 * (j + 1) := by ring
        simp [benchLoop, progbar, hn0, hdiv, ih, corpusSize, harith]
    simp [benchmark, key]

/-- C10 witness: five cycles abort immediately with a division by zero and
nothing parsed; twenty-five cycles parse all 275 corpus messages and
reach the report. -/
theorem benchmark_progbar_divzero_witness :
    benchmark 5 = (0, false, some .zeroDivision) ∧
    benchmark 25 = (11 * 25, true, none) :=
  ⟨benchmark_progbar_divzero.1 5 (by norm_num) (by norm_num),
   benchmark_progbar_divzero.2 25 (by norm_num)⟩

end Pyrtcm
